import Mathlib

/-!
# TicketBari-Server: verified model of the booking/payment core

Shallow embedding of the booking-and-payment backend (`src/index.js`, the
main implementation; the files under `src/unnamed/` are earlier revisions
of the same server and are noted where a claim refers to them).

Modelling conventions:
* Mongo ObjectIds are modelled as `Nat`; `ObjectId.isValid` checks are
  therefore always satisfied and elided.
* Each Mongo collection is a `List` of records; `findOne` is `List.find?`
  (first match) and `updateOne` updates the first matching document
  (`updateFirst`), matching Mongo's single-document update semantics.
* Timestamp fields (`createdAt`, `updatedAt`, `paymentDate`, ...) carry no
  logic read by any modelled route and are omitted, as are display-only
  denormalized fields not read by any handler (images, route strings,
  arrival-time formatting).
* JS numbers on the price/quantity paths are modelled as `Int` (the server
  never produces fractions on these paths and the claims quantify over
  integers, including zero and negatives).
* Handler results are `Except (Nat × String) α`: an error carries the HTTP
  status code and the response message, mirroring `res.status(c).send(msg)`.
* The nondeterministic generators (`generateSeatNumber`,
  `generateBookingReference`, fresh `_id`s) are passed as parameters.
-/

namespace TicketBari

/-- A ticket listing document (`ticketsCollection`). `tid` models `_id`. -/
structure Ticket where
  tid : Nat
  vendorEmail : String
  title : String
  price : Int
  quantity : Int
  verificationStatus : String
  isAdvertised : Bool
  isHidden : Bool
deriving DecidableEq, Repr

/-- A booking document (`bookingsCollection`). `bid` models `_id`.
`status` is the raw status field, `bookingStatus` the lifecycle field;
`src/index.js` maintains both. -/
structure Booking where
  bid : Nat
  ticketId : Nat
  userEmail : String
  quantity : Int
  unitPrice : Int
  totalPrice : Int
  ticketTitle : String
  seatNumber : String
  bookingReference : String
  status : String
  bookingStatus : String
  transactionId : Option String
  paymentMethod : Option String
deriving DecidableEq, Repr

/-- A payment document (`paymentCollection`), as built in POST /payments. -/
structure Payment where
  userEmail : String
  bookingId : Nat
  transactionId : String
  amount : Int
  ticketTitle : String
  seatNumber : String
  bookingReference : String
  paymentMethod : String
  status : String
deriving DecidableEq, Repr

/-- A user document (`usersCollection`). `name` stands for the profile
fields the upsert body may carry besides `email` and `role`. -/
structure User where
  email : String
  role : String
  name : String
deriving DecidableEq, Repr

/-- The document store: the four collections of `ticketbariDB`. -/
structure DB where
  tickets : List Ticket
  users : List User
  bookings : List Booking
  payments : List Payment
deriving DecidableEq, Repr

/-- Mongo `updateOne`: update the first document matching the filter. -/
def updateFirst (p : α → Bool) (f : α → α) : List α → List α
  | [] => []
  | x :: xs => if p x then f x :: xs else x :: updateFirst p f xs

/-- `ticketsCollection.findOne({_id})`. -/
def DB.getTicket (db : DB) (tid : Nat) : Option Ticket :=
  db.tickets.find? (fun t => t.tid == tid)

/-- `bookingsCollection.findOne({_id})`. -/
def DB.getBooking (db : DB) (bid : Nat) : Option Booking :=
  db.bookings.find? (fun b => b.bid == bid)

/-- `usersCollection.findOne({email})`. -/
def DB.getUser (db : DB) (email : String) : Option User :=
  db.users.find? (fun u => u.email == email)

/-- The quantity field of the ticket with the given id, when present. -/
def DB.getTicketQuantity (db : DB) (tid : Nat) : Option Int :=
  (db.getTicket tid).map Ticket.quantity

/-- Membership of the partial unique index on (ticketId, seatNumber):
`bookingStatus: { $in: ["pending", "confirmed"] }`. -/
def isActiveStatus (s : String) : Bool :=
  s == "pending" || s == "confirmed"

/-- Whether inserting `b` violates the unique partial index
`{ ticketId: 1, seatNumber: 1 }` (`src/index.js` lines 56-64): the new
document falls under the partial filter and an indexed document with the
same key already exists. -/
def seatIndexConflict (bookings : List Booking) (b : Booking) : Bool :=
  isActiveStatus b.bookingStatus &&
    bookings.any (fun b0 =>
      b0.ticketId == b.ticketId && b0.seatNumber == b.seatNumber &&
        isActiveStatus b0.bookingStatus)

/-- `bookingsCollection.insertOne`: fails with Mongo error code 11000 on a
unique-index violation, otherwise appends the document. -/
def bookingsInsertOne (bookings : List Booking) (b : Booking) :
    Except Nat (List Booking) :=
  if seatIndexConflict bookings b then .error 11000
  else .ok (bookings ++ [b])

/-- Request body of POST /bookings. -/
structure CreateBookingReq where
  ticketId : Nat
  quantity : Int
  seatNumber : Option String
deriving DecidableEq, Repr

/-- The booking document assembled by POST /bookings (`src/index.js`
lines 276-327): `generatedSeatNumber = seatNumber || generateSeatNumber()`,
`totalPrice = ticket.price * quantity`, both status fields "pending",
payment linkage fields null. -/
def newBooking (req : CreateBookingReq) (email : String) (ticket : Ticket)
    (genSeat genRef : String) (newId : Nat) : Booking :=
  { bid := newId
    ticketId := req.ticketId
    userEmail := email
    quantity := req.quantity
    unitPrice := ticket.price
    totalPrice := ticket.price * req.quantity
    ticketTitle := ticket.title
    seatNumber := req.seatNumber.getD genSeat
    bookingReference := genRef
    status := "pending"
    bookingStatus := "pending"
    transactionId := none
    paymentMethod := none }

/-- POST /bookings (`src/index.js` lines 256-343). `genSeat` and `genRef`
stand for `generateSeatNumber()` / `generateBookingReference()`, `newId`
for the fresh `_id` Mongo assigns. The catch-branch maps Mongo error code
11000 to a 409 conflict and everything else to a 500. -/
def createBooking (db : DB) (req : CreateBookingReq) (email : String)
    (genSeat genRef : String) (newId : Nat) :
    Except (Nat × String) Booking × DB :=
  match db.getTicket req.ticketId with
  | none => (.error (404, "Ticket not found"), db)
  | some ticket =>
    let booking : Booking := newBooking req email ticket genSeat genRef newId
    match bookingsInsertOne db.bookings booking with
    | .error code =>
        if code == 11000 then
          (.error (409, "Seat already booked. Please select another seat."), db)
        else
          (.error (500, "Server error"), db)
    | .ok bs => (.ok booking, { db with bookings := bs })

/-- The accepted external status vocabulary of PATCH /bookings/:id/status. -/
def acceptedStatusValues : List String :=
  ["accepted", "rejected", "pending", "paid", "cancelled"]

/-- The `statusMap` of PATCH /bookings/:id/status (`src/index.js` 383-389). -/
def statusMap (s : String) : String :=
  if s == "accepted" then "confirmed"
  else if s == "rejected" then "cancelled"
  else if s == "pending" then "pending"
  else if s == "paid" then "confirmed"
  else "cancelled"

/-- PATCH /bookings/:id/status (`src/index.js` lines 374-414). Note the
`updateOne` filter is only `{_id}`: the current status is not consulted. -/
def updateBookingStatus (db : DB) (id : Nat) (status : String) :
    Except (Nat × String) Unit × DB :=
  if !(acceptedStatusValues.contains status) then
    (.error (400, "Invalid status"), db)
  else
    (.ok (),
      { db with bookings :=
          (updateFirst (fun b => b.bid == id)
            (fun b => { b with status := status, bookingStatus := statusMap status })
            db.bookings) })

/-- Request body of POST /payments. -/
structure PaymentReq where
  bookingId : Nat
  transactionId : String
  amount : Int
  paymentMethod : Option String
deriving DecidableEq, Repr

/-- The payment document built by POST /payments (`src/index.js` 476-492). -/
def mkPayment (req : PaymentReq) (email : String) (booking : Booking) : Payment :=
  { userEmail := email
    bookingId := req.bookingId
    transactionId := req.transactionId
    amount := req.amount
    ticketTitle := booking.ticketTitle
    seatNumber := booking.seatNumber
    bookingReference := booking.bookingReference
    paymentMethod := req.paymentMethod.getD "Credit Card"
    status := "completed" }

/-- POST /payments (`src/index.js` lines 435-523): resolve the booking,
guard against double payment (`booking.status === "paid"`), validate the
amount against `booking.totalPrice`, then append the payment record, mark
the booking paid/confirmed, and `$inc` the ticket quantity by
`-booking.quantity`. (The "past tickets" check is commented out in the
source and hence absent here.) -/
def recordPayment (db : DB) (req : PaymentReq) (email : String) :
    Except (Nat × String) Unit × DB :=
  match db.getBooking req.bookingId with
  | none => (.error (404, "Booking not found"), db)
  | some booking =>
    if booking.status == "paid" then
      (.error (400, "Booking already paid"), db)
    else if req.amount != booking.totalPrice then
      (.error (400, "Payment amount mismatch"), db)
    else
      let db1 := { db with payments := db.payments ++ [mkPayment req email booking] }
      let db2 :=
        { db1 with bookings :=
            (updateFirst (fun b => b.bid == req.bookingId)
              (fun b =>
                { b with
                  status := "paid"
                  bookingStatus := "confirmed"
                  transactionId := some req.transactionId
                  paymentMethod := some (req.paymentMethod.getD "Credit Card") })
              db1.bookings) }
      let db3 :=
        { db2 with tickets :=
            (updateFirst (fun t => t.tid == booking.ticketId)
              (fun t => { t with quantity := t.quantity - booking.quantity })
              db2.tickets) }
      (.ok (), db3)

/-- DELETE /bookings/:id (`src/index.js` lines 557-607): owner-only; set
both status fields to cancelled; restore the ticket quantity only when the
pre-transition booking was paid or confirmed. -/
def cancelBooking (db : DB) (id : Nat) (email : String) :
    Except (Nat × String) Unit × DB :=
  match db.getBooking id with
  | none => (.error (404, "Booking not found"), db)
  | some booking =>
    if booking.userEmail != email then
      (.error (403, "Not authorized"), db)
    else
      let db1 :=
        { db with bookings :=
            (updateFirst (fun b => b.bid == id)
              (fun b => { b with status := "cancelled", bookingStatus := "cancelled" })
              db.bookings) }
      let db2 :=
        if booking.status == "paid" || booking.bookingStatus == "confirmed" then
          { db1 with tickets :=
              (updateFirst (fun t => t.tid == booking.ticketId)
                (fun t => { t with quantity := t.quantity + booking.quantity })
                db1.tickets) }
        else db1
      (.ok (), db2)

/-- `countDocuments({ isAdvertised: true, verificationStatus: "approved" })`. -/
def advertisedApprovedCount (db : DB) : Nat :=
  (db.tickets.filter
    (fun t => t.isAdvertised && t.verificationStatus == "approved")).length

/-- PATCH /admin/tickets/advertise/:id (`src/index.js` lines 948-982):
only approved tickets; a toggle-on is refused once six advertised+approved
tickets exist; the flag is then flipped. -/
def toggleAdvertise (db : DB) (id : Nat) : Except (Nat × String) Bool × DB :=
  match db.getTicket id with
  | none => (.error (404, "Ticket not found"), db)
  | some ticket =>
    if ticket.verificationStatus != "approved" then
      (.error (400, "Only approved tickets can be advertised"), db)
    else if !ticket.isAdvertised && advertisedApprovedCount db >= 6 then
      (.error (400, "Max 6 advertised"), db)
    else
      (.ok (!ticket.isAdvertised),
        { db with tickets :=
            (updateFirst (fun t => t.tid == id)
              (fun t => { t with isAdvertised := !ticket.isAdvertised })
              db.tickets) })

/-- Request body of POST /user: `email`, an optional client-supplied
`role`, and `name` standing for the remaining profile fields. -/
structure UserReq where
  email : String
  role : Option String
  name : String
deriving DecidableEq, Repr

/-- POST /user (`src/index.js` lines 127-151): upsert keyed on email;
`userData.role = userData.role || "customer"`, overwritten with the stored
role when the user already exists, then `$set` with upsert. -/
def upsertUser (db : DB) (userData : UserReq) : Except (Nat × String) Unit × DB :=
  if userData.email == "" then (.error (400, "Email required"), db)
  else
    let effectiveRole := userData.role.getD "customer"
    match db.getUser userData.email with
    | some existingUser =>
      (.ok (),
        { db with users :=
            (updateFirst (fun u => u.email == userData.email)
              (fun _ =>
                { email := userData.email
                  role := existingUser.role
                  name := userData.name })
              db.users) })
    | none =>
      (.ok (),
        { db with users :=
            (db.users ++
              [{ email := userData.email, role := effectiveRole, name := userData.name }]) })

/-- GET /tickets/all (`src/index.js` 611-622): approved and not hidden. -/
def ticketsAll (db : DB) : List Ticket :=
  db.tickets.filter (fun t => t.verificationStatus == "approved" && !t.isHidden)

/-- GET /tickets/latest (`src/index.js` 625-637): the same filter with
`limit(8)`; the `createdAt` sort permutes but never widens the result. -/
def ticketsLatest (db : DB) : List Ticket :=
  (ticketsAll db).take 8

/-- GET /tickets/advertised-home (`src/index.js` 640-655). -/
def ticketsAdvertisedHome (db : DB) : List Ticket :=
  (db.tickets.filter
    (fun t => t.isAdvertised && t.verificationStatus == "approved" && !t.isHidden)).take 6

/-- GET /tickets/:id (`src/index.js` 658-677): a bare `findOne({_id})`
with no visibility filter; absence is reported with status 400. -/
def getTicketRoute (db : DB) (id : Nat) : Except (Nat × String) Ticket :=
  match db.getTicket id with
  | none => .error (400, "Ticket not found")
  | some t => .ok t

/-- GET /user/transactions (`src/index.js` 526-554): the requester's
payment rows (the `paymentDate` sort permutes but never changes the set). -/
def userTransactions (db : DB) (email : String) : List Payment :=
  db.payments.filter (fun p => p.userEmail == email)

/-- Number of payment records referencing a given booking id. -/
def paymentsForBooking (db : DB) (bid : Nat) : Nat :=
  (db.payments.filter (fun p => p.bookingId == bid)).length

/-- The active bookings occupying seat `seat` of ticket `tid`. -/
def activeBookingsAt (db : DB) (tid : Nat) (seat : String) : List Booking :=
  db.bookings.filter (fun b =>
    b.ticketId == tid && b.seatNumber == seat && isActiveStatus b.bookingStatus)

/-- The anti-double-booking invariant: at most one active booking per
(ticket, seat) pair. -/
def NoDoubleBooking (db : DB) : Prop :=
  ∀ tid seat, (activeBookingsAt db tid seat).length ≤ 1

/-- Sequential execution of a list of POST /payments calls. -/
def runPayments (db : DB) (calls : List (PaymentReq × String)) : DB :=
  calls.foldl (fun d c => (recordPayment d c.1 c.2).2) db

/-- Sequential execution of a list of advertise toggles. -/
def runToggles (db : DB) (ids : List Nat) : DB :=
  ids.foldl (fun d i => (toggleAdvertise d i).2) db

/-! ## Generic lemmas about the single-document update -/

lemma updateFirst_nil (p : α → Bool) (f : α → α) : updateFirst p f [] = [] := rfl

lemma updateFirst_cons (p : α → Bool) (f : α → α) (x : α) (xs : List α) :
    updateFirst p f (x :: xs) =
      if p x then f x :: xs else x :: updateFirst p f xs := rfl

/-- `updateOne` commutes with `findOne` on the same filter when the update
does not move the document out of the filter. -/
lemma find?_updateFirst (p : α → Bool) (f : α → α) (l : List α)
    (hf : ∀ a, p a = true → p (f a) = true) :
    (updateFirst p f l).find? p = (l.find? p).map f := by
  induction l with
  | nil => simp [updateFirst]
  | cons x xs ih =>
    by_cases hx : p x = true
    · rw [updateFirst_cons, if_pos hx, List.find?_cons_of_pos _ (hf x hx),
        List.find?_cons_of_pos _ hx, Option.map_some']
    · rw [updateFirst_cons, if_neg hx, List.find?_cons_of_neg _ hx,
        List.find?_cons_of_neg _ hx, ih]

/-- An `updateOne` touches a single document, so it can raise a count by
at most one. -/
lemma length_filter_updateFirst_le (q p : α → Bool) (f : α → α) (l : List α) :
    ((updateFirst p f l).filter q).length ≤ (l.filter q).length + 1 := by
  induction l with
  | nil => simp [updateFirst]
  | cons x xs ih =>
    by_cases hx : p x = true
    · rw [updateFirst_cons, if_pos hx]
      by_cases hq : q (f x) = true
      · rw [List.filter_cons_of_pos hq]
        by_cases hqx : q x = true
        · rw [List.filter_cons_of_pos hqx]
          simp
        · rw [List.filter_cons_of_neg (by simpa using hqx)]
          simp
      · rw [List.filter_cons_of_neg (by simpa using hq)]
        by_cases hqx : q x = true
        · rw [List.filter_cons_of_pos hqx]
          exact Nat.le_succ_of_le (Nat.le_succ _)
        · rw [List.filter_cons_of_neg (by simpa using hqx)]
          exact Nat.le_succ _
    · rw [updateFirst_cons, if_neg hx]
      by_cases hqx : q x = true
      · rw [List.filter_cons_of_pos hqx, List.filter_cons_of_pos hqx]
        simpa using ih
      · rw [List.filter_cons_of_neg (by simpa using hqx),
          List.filter_cons_of_neg (by simpa using hqx)]
        exact ih

/-- An `updateOne` whose new value falls outside a filter can only lower
the filtered count. -/
lemma length_filter_updateFirst_of_false (q p : α → Bool) (f : α → α) (l : List α)
    (hf : ∀ a, q (f a) = false) :
    ((updateFirst p f l).filter q).length ≤ (l.filter q).length := by
  induction l with
  | nil => simp [updateFirst]
  | cons x xs ih =>
    by_cases hx : p x = true
    · rw [updateFirst_cons, if_pos hx,
        List.filter_cons_of_neg (by simp [hf x])]
      by_cases hqx : q x = true
      · rw [List.filter_cons_of_pos hqx]
        exact Nat.le_succ_of_le (Nat.le_refl _)
      · rw [List.filter_cons_of_neg (by simpa using hqx)]
    · rw [updateFirst_cons, if_neg hx]
      by_cases hqx : q x = true
      · rw [List.filter_cons_of_pos hqx, List.filter_cons_of_pos hqx]
        simpa using ih
      · rw [List.filter_cons_of_neg (by simpa using hqx),
          List.filter_cons_of_neg (by simpa using hqx)]
        exact ih

/-! ## Unfolding lemmas for POST /payments -/

/-- The booking update applied by a successful settlement. -/
def settleBooking (req : PaymentReq) (b : Booking) : Booking :=
  { b with
    status := "paid"
    bookingStatus := "confirmed"
    transactionId := some req.transactionId
    paymentMethod := some (req.paymentMethod.getD "Credit Card") }

/-- The store state after a successful settlement of booking `b`. -/
def settledDB (db : DB) (req : PaymentReq) (email : String) (b : Booking) : DB :=
  { db with
    payments := db.payments ++ [mkPayment req email b]
    bookings :=
      (updateFirst (fun b0 => b0.bid == req.bookingId) (settleBooking req) db.bookings)
    tickets :=
      (updateFirst (fun t => t.tid == b.ticketId)
        (fun t => { t with quantity := t.quantity - b.quantity })
        db.tickets) }

lemma recordPayment_notFound (db : DB) (req : PaymentReq) (email : String)
    (hb : db.getBooking req.bookingId = none) :
    recordPayment db req email = (.error (404, "Booking not found"), db) := by
  simp [recordPayment, hb]

lemma recordPayment_alreadyPaid (db : DB) (req : PaymentReq) (email : String)
    (b : Booking) (hb : db.getBooking req.bookingId = some b)
    (hp : b.status = "paid") :
    recordPayment db req email = (.error (400, "Booking already paid"), db) := by
  simp [recordPayment, hb, hp]

lemma recordPayment_mismatch (db : DB) (req : PaymentReq) (email : String)
    (b : Booking) (hb : db.getBooking req.bookingId = some b)
    (hp : b.status ≠ "paid") (ha : req.amount ≠ b.totalPrice) :
    recordPayment db req email = (.error (400, "Payment amount mismatch"), db) := by
  simp [recordPayment, hb, hp, ha]

lemma recordPayment_success (db : DB) (req : PaymentReq) (email : String)
    (b : Booking) (hb : db.getBooking req.bookingId = some b)
    (hp : b.status ≠ "paid") (ha : req.amount = b.totalPrice) :
    recordPayment db req email = (.ok (), settledDB db req email b) := by
  simp [recordPayment, hb, hp, ha, settledDB]
  rfl

/-- Every failing POST /payments leaves the store untouched. -/
lemma recordPayment_error_unchanged (db : DB) (req : PaymentReq) (email : String)
    (e : Nat × String) (h : (recordPayment db req email).1 = .error e) :
    (recordPayment db req email).2 = db := by
  cases hb : db.getBooking req.bookingId with
  | none => rw [recordPayment_notFound db req email hb]
  | some b =>
    by_cases hp : b.status = "paid"
    · rw [recordPayment_alreadyPaid db req email b hb hp]
    · by_cases ha : req.amount = b.totalPrice
      · rw [recordPayment_success db req email b hb hp ha] at h
        exact absurd h (by simp)
      · rw [recordPayment_mismatch db req email b hb hp ha]

lemma settledDB_getBooking (db : DB) (req : PaymentReq) (email : String) (b : Booking)
    (hb : db.getBooking req.bookingId = some b) :
    (settledDB db req email b).getBooking req.bookingId = some (settleBooking req b) := by
  have h := find?_updateFirst (fun b0 => b0.bid == req.bookingId) (settleBooking req)
    db.bookings (fun a ha => by simpa [settleBooking] using ha)
  simp only [DB.getBooking, settledDB] at *
  rw [h, hb, Option.map_some']

lemma settledDB_getTicketQuantity (db : DB) (req : PaymentReq) (email : String)
    (b : Booking) :
    (settledDB db req email b).getTicketQuantity b.ticketId
      = (db.getTicketQuantity b.ticketId).map (fun q => q - b.quantity) := by
  have h := find?_updateFirst (fun t => t.tid == b.ticketId)
    (fun t => { t with quantity := t.quantity - b.quantity })
    db.tickets (fun a ha => by simpa using ha)
  simp only [DB.getTicketQuantity, DB.getTicket, settledDB] at *
  rw [h, Option.map_map, Option.map_map]
  rfl

lemma settledDB_paymentsForBooking (db : DB) (req : PaymentReq) (email : String)
    (b : Booking) :
    paymentsForBooking (settledDB db req email b) req.bookingId
      = paymentsForBooking db req.bookingId + 1 := by
  simp [paymentsForBooking, settledDB, List.filter_append, mkPayment]

lemma settledDB_userTransactions_payer (db : DB) (req : PaymentReq) (email : String)
    (b : Booking) :
    userTransactions (settledDB db req email b) email
      = userTransactions db email ++ [mkPayment req email b] := by
  simp [userTransactions, settledDB, List.filter_append, mkPayment]

lemma settledDB_userTransactions_other (db : DB) (req : PaymentReq) (email : String)
    (b : Booking) (e : String) (he : e ≠ email) :
    userTransactions (settledDB db req email b) e = userTransactions db e := by
  simp [userTransactions, settledDB, List.filter_append, mkPayment, he.symm]

/-! ## Unfolding lemmas for POST /bookings -/

lemma createBooking_notFound (db : DB) (req : CreateBookingReq) (email : String)
    (genSeat genRef : String) (newId : Nat)
    (ht : db.getTicket req.ticketId = none) :
    createBooking db req email genSeat genRef newId
      = (.error (404, "Ticket not found"), db) := by
  simp [createBooking, ht]

lemma createBooking_conflict (db : DB) (req : CreateBookingReq) (email : String)
    (genSeat genRef : String) (newId : Nat) (ticket : Ticket)
    (ht : db.getTicket req.ticketId = some ticket)
    (hc : seatIndexConflict db.bookings
        (newBooking req email ticket genSeat genRef newId) = true) :
    createBooking db req email genSeat genRef newId
      = (.error (409, "Seat already booked. Please select another seat."), db) := by
  simp [createBooking, ht, bookingsInsertOne, hc]

lemma createBooking_ok (db : DB) (req : CreateBookingReq) (email : String)
    (genSeat genRef : String) (newId : Nat) (ticket : Ticket)
    (ht : db.getTicket req.ticketId = some ticket)
    (hc : seatIndexConflict db.bookings
        (newBooking req email ticket genSeat genRef newId) = false) :
    createBooking db req email genSeat genRef newId
      = (.ok (newBooking req email ticket genSeat genRef newId),
         { db with bookings :=
            (db.bookings ++ [newBooking req email ticket genSeat genRef newId]) }) := by
  simp [createBooking, ht, bookingsInsertOne, hc]

/-- For a booking assembled with an explicitly requested seat, the unique
partial index fires exactly when the (ticket, seat) pair already carries
an active booking. -/
lemma seatIndexConflict_newBooking (db : DB) (tid : Nat) (q : Int)
    (seat email genSeat genRef : String) (newId : Nat) (ticket : Ticket) :
    seatIndexConflict db.bookings
        (newBooking ⟨tid, q, some seat⟩ email ticket genSeat genRef newId) = true
      ↔ activeBookingsAt db tid seat ≠ [] := by
  constructor
  · intro h hnil
    have hany : db.bookings.any (fun b0 =>
        b0.ticketId == tid && b0.seatNumber == seat &&
          isActiveStatus b0.bookingStatus) = true := by
      simpa [seatIndexConflict, newBooking, isActiveStatus] using h
    obtain ⟨x, hx, hpx⟩ := List.any_eq_true.mp hany
    have : x ∈ activeBookingsAt db tid seat := by
      simp only [activeBookingsAt, List.mem_filter]
      exact ⟨hx, hpx⟩
    rw [hnil] at this
    exact absurd this (List.not_mem_nil x)
  · intro hne
    obtain ⟨x, hx⟩ := List.exists_mem_of_ne_nil _ hne
    have hx' := List.mem_filter.mp hx
    have hany : db.bookings.any (fun b0 =>
        b0.ticketId == tid && b0.seatNumber == seat &&
          isActiveStatus b0.bookingStatus) = true :=
      List.any_eq_true.mpr ⟨x, hx'.1, hx'.2⟩
    simpa [seatIndexConflict, newBooking, isActiveStatus] using hany

/-! ## Unfolding lemmas for DELETE /bookings/:id -/

/-- The store state after a successful cancellation of booking `b`:
both status fields set to cancelled, the ticket quantity restored only
when the pre-transition booking was paid or confirmed. -/
def cancelledDB (db : DB) (id : Nat) (b : Booking) : DB :=
  let db1 :=
    { db with bookings :=
        (updateFirst (fun b0 => b0.bid == id)
          (fun b0 => { b0 with status := "cancelled", bookingStatus := "cancelled" })
          db.bookings) }
  if b.status == "paid" || b.bookingStatus == "confirmed" then
    { db1 with tickets :=
        (updateFirst (fun t => t.tid == b.ticketId)
          (fun t => { t with quantity := t.quantity + b.quantity })
          db1.tickets) }
  else db1

lemma cancelBooking_success (db : DB) (id : Nat) (email : String) (b : Booking)
    (hb : db.getBooking id = some b) (howner : b.userEmail = email) :
    cancelBooking db id email = (.ok (), cancelledDB db id b) := by
  simp [cancelBooking, hb, howner, cancelledDB]

lemma cancelledDB_getBooking (db : DB) (id : Nat) (b : Booking)
    (hb : db.getBooking id = some b) :
    (cancelledDB db id b).getBooking id
      = some { b with status := "cancelled", bookingStatus := "cancelled" } := by
  have h := find?_updateFirst (fun b0 => b0.bid == id)
    (fun b0 => { b0 with status := "cancelled", bookingStatus := "cancelled" })
    db.bookings (fun a ha => by simpa using ha)
  simp only [DB.getBooking] at *
  by_cases hg : (b.status == "paid" || b.bookingStatus == "confirmed") = true
  · simp only [cancelledDB, hg, if_pos]
    rw [h, hb, Option.map_some']
  · simp only [cancelledDB, if_neg hg]
    rw [h, hb, Option.map_some']

lemma cancelledDB_quantity_restored (db : DB) (id : Nat) (b : Booking)
    (hg : b.status = "paid" ∨ b.bookingStatus = "confirmed") :
    (cancelledDB db id b).getTicketQuantity b.ticketId
      = (db.getTicketQuantity b.ticketId).map (fun q => q + b.quantity) := by
  have hg' : (b.status == "paid" || b.bookingStatus == "confirmed") = true := by
    rcases hg with h | h <;> simp [h]
  have h := find?_updateFirst (fun t => t.tid == b.ticketId)
    (fun t => { t with quantity := t.quantity + b.quantity })
    db.tickets (fun a ha => by simpa using ha)
  simp only [cancelledDB, hg', if_pos, DB.getTicketQuantity, DB.getTicket]
  rw [h, Option.map_map, Option.map_map]
  rfl

lemma cancelledDB_quantity_unchanged (db : DB) (id : Nat) (b : Booking)
    (h1 : b.status ≠ "paid") (h2 : b.bookingStatus ≠ "confirmed") :
    (cancelledDB db id b).tickets = db.tickets := by
  have hg : ¬(b.status == "paid" || b.bookingStatus == "confirmed") = true := by
    simp [h1, h2]
  simp [cancelledDB, hg]

/-! ## Unfolding lemmas for PATCH /admin/tickets/advertise/:id -/

lemma toggleAdvertise_notApproved (db : DB) (id : Nat) (t : Ticket)
    (ht : db.getTicket id = some t) (h : t.verificationStatus ≠ "approved") :
    toggleAdvertise db id
      = (.error (400, "Only approved tickets can be advertised"), db) := by
  simp [toggleAdvertise, ht, h]

lemma toggleAdvertise_capped (db : DB) (id : Nat) (t : Ticket)
    (ht : db.getTicket id = some t) (happ : t.verificationStatus = "approved")
    (hoff : t.isAdvertised = false) (hc : 6 ≤ advertisedApprovedCount db) :
    toggleAdvertise db id = (.error (400, "Max 6 advertised"), db) := by
  simp [toggleAdvertise, ht, happ, hoff, hc]

lemma toggleAdvertise_off (db : DB) (id : Nat) (t : Ticket)
    (ht : db.getTicket id = some t) (happ : t.verificationStatus = "approved")
    (hon : t.isAdvertised = true) :
    (toggleAdvertise db id).1 = .ok false := by
  simp [toggleAdvertise, ht, happ, hon]

/-- One advertise toggle preserves the cap of six advertised+approved
tickets: a toggle-on is admitted only below the cap and adds one, a
toggle-off removes the flag, everything else leaves the store unchanged. -/
lemma toggleAdvertise_preserves_cap (db : DB) (id : Nat)
    (h : advertisedApprovedCount db ≤ 6) :
    advertisedApprovedCount (toggleAdvertise db id).2 ≤ 6 := by
  cases ht : db.getTicket id with
  | none => simpa [toggleAdvertise, ht] using h
  | some t =>
    by_cases happ : t.verificationStatus = "approved"
    · by_cases hon : t.isAdvertised = true
      · have hres : (toggleAdvertise db id).2 =
            { db with tickets :=
                (updateFirst (fun t0 => t0.tid == id)
                  (fun t0 => { t0 with isAdvertised := !t.isAdvertised })
                  db.tickets) } := by
          simp [toggleAdvertise, ht, happ, hon]
        rw [hres]
        calc advertisedApprovedCount
              { db with tickets :=
                  (updateFirst (fun t0 => t0.tid == id)
                    (fun t0 => { t0 with isAdvertised := !t.isAdvertised })
                    db.tickets) }
            ≤ advertisedApprovedCount db :=
              length_filter_updateFirst_of_false _ _ _ _ (fun a => by simp [hon])
          _ ≤ 6 := h
      · have hoff : t.isAdvertised = false := by simpa using hon
        by_cases hc : 6 ≤ advertisedApprovedCount db
        · rw [toggleAdvertise_capped db id t ht happ hoff hc]
          exact h
        · have hlt : advertisedApprovedCount db + 1 ≤ 6 := Nat.lt_of_not_le hc
          have hres : (toggleAdvertise db id).2 =
              { db with tickets :=
                  (updateFirst (fun t0 => t0.tid == id)
                    (fun t0 => { t0 with isAdvertised := !t.isAdvertised })
                    db.tickets) } := by
            simp [toggleAdvertise, ht, happ, hoff, hc]
          rw [hres]
          calc advertisedApprovedCount
                { db with tickets :=
                    (updateFirst (fun t0 => t0.tid == id)
                      (fun t0 => { t0 with isAdvertised := !t.isAdvertised })
                      db.tickets) }
              ≤ advertisedApprovedCount db + 1 :=
                length_filter_updateFirst_le _ _ _ _
            _ ≤ 6 := hlt
    · rw [toggleAdvertise_notApproved db id t ht happ]
      exact h

/-- The cap survives any sequence of toggle calls. -/
lemma runToggles_cap (ids : List Nat) :
    ∀ db : DB, advertisedApprovedCount db ≤ 6 →
      advertisedApprovedCount (runToggles db ids) ≤ 6 := by
  induction ids with
  | nil => intro db h; simpa [runToggles] using h
  | cons i is ih =>
    intro db h
    have hstep := toggleAdvertise_preserves_cap db i h
    simpa [runToggles, List.foldl_cons] using ih (toggleAdvertise db i).2 hstep

/-! ## Settlement sequences -/

/-- The observable footprint of exactly one settlement of booking `b`
relative to the store `db0` (whose ticket held quantity `tq`): the booking
shows paid, its payment history grew by exactly one record, and the ticket
quantity was decremented exactly once. -/
def SettledState (db0 db : DB) (b : Booking) (tq : Int) : Prop :=
  ((db.getBooking b.bid).map Booking.status = some "paid")
  ∧ paymentsForBooking db b.bid = paymentsForBooking db0 b.bid + 1
  ∧ db.getTicketQuantity b.ticketId = some (tq - b.quantity)

/-- From a settled store, any further POST /payments on the same booking
id bounces off the double-payment guard and changes nothing. -/
lemma settled_step (db0 : DB) (b : Booking) (tq : Int) (db : DB)
    (hs : SettledState db0 db b tq) (req : PaymentReq) (email : String)
    (hreq : req.bookingId = b.bid) :
    recordPayment db req email = (.error (400, "Booking already paid"), db) := by
  obtain ⟨hpaid, -, -⟩ := hs
  obtain ⟨pb, hpb, hpbs⟩ := Option.map_eq_some'.mp hpaid
  exact recordPayment_alreadyPaid db req email pb (by rwa [hreq]) hpbs

/-- A successful settlement of `b` from `db0` lands in `SettledState`. -/
lemma settle_once (db0 : DB) (b : Booking) (t : Ticket)
    (hb : db0.getBooking b.bid = some b)
    (ht : db0.getTicket b.ticketId = some t)
    (hp : b.status ≠ "paid")
    (req : PaymentReq) (email : String)
    (hreq : req.bookingId = b.bid) (ha : req.amount = b.totalPrice) :
    SettledState db0 (recordPayment db0 req email).2 b t.quantity := by
  have hb' : db0.getBooking req.bookingId = some b := by rwa [hreq]
  rw [recordPayment_success db0 req email b hb' hp ha]
  refine ⟨?_, ?_, ?_⟩
  · rw [show b.bid = req.bookingId from hreq.symm,
      settledDB_getBooking db0 req email b hb']
    rfl
  · rw [show b.bid = req.bookingId from hreq.symm]
    exact settledDB_paymentsForBooking db0 req email b
  · rw [settledDB_getTicketQuantity db0 req email b]
    simp [DB.getTicketQuantity, ht]

/-- Invariant for arbitrary sequences of POST /payments on one booking:
the store is either untouched or settled exactly once. -/
lemma runPayments_once (db0 : DB) (b : Booking) (t : Ticket)
    (hb : db0.getBooking b.bid = some b)
    (ht : db0.getTicket b.ticketId = some t)
    (hp : b.status ≠ "paid") :
    ∀ (calls : List (PaymentReq × String)) (db : DB),
      (∀ c ∈ calls, c.1.bookingId = b.bid) →
      (db = db0 ∨ SettledState db0 db b t.quantity) →
      (runPayments db calls = db0
        ∨ SettledState db0 (runPayments db calls) b t.quantity) := by
  intro calls
  induction calls with
  | nil =>
    intro db _ hinv
    simpa [runPayments] using hinv
  | cons c cs ih =>
    intro db hcalls hinv
    have hc : c.1.bookingId = b.bid := hcalls c (List.mem_cons_self c cs)
    have hcs : ∀ c0 ∈ cs, c0.1.bookingId = b.bid :=
      fun c0 hc0 => hcalls c0 (List.mem_cons_of_mem c hc0)
    have hstep : (recordPayment db c.1 c.2).2 = db0
        ∨ SettledState db0 (recordPayment db c.1 c.2).2 b t.quantity := by
      rcases hinv with rfl | hs
      · by_cases ha : c.1.amount = b.totalPrice
        · exact Or.inr (settle_once db b t hb ht hp c.1 c.2 hc ha)
        · rw [recordPayment_mismatch db c.1 c.2 b (by rwa [hc]) hp ha]
          exact Or.inl rfl
      · rw [settled_step db0 b t.quantity db hs c.1 c.2 hc]
        exact Or.inr hs
    have := ih (recordPayment db c.1 c.2).2 hcs hstep
    simpa [runPayments, List.foldl_cons] using this

/-! ## Concrete fixtures (the spec's example scenario: price 20,
quantity 10, a booking of 2 seats, totalPrice 40) -/

def exTicket : Ticket :=
  { tid := 1, vendorEmail := "v@x", title := "Dhaka-Chittagong", price := 20,
    quantity := 10, verificationStatus := "approved", isAdvertised := false,
    isHidden := false }

def exBooking : Booking :=
  { bid := 1, ticketId := 1, userEmail := "c@x", quantity := 2, unitPrice := 20,
    totalPrice := 40, ticketTitle := "Dhaka-Chittagong", seatNumber := "1A",
    bookingReference := "BK1", status := "pending", bookingStatus := "pending",
    transactionId := none, paymentMethod := none }

def exDb : DB :=
  { tickets := [exTicket], users := [], bookings := [exBooking], payments := [] }

def exPaidBooking : Booking :=
  { exBooking with status := "paid", bookingStatus := "confirmed" }

def exPaidDb : DB := { exDb with bookings := [exPaidBooking] }

/-! ## The claims -/

/-- C2. Price integrity: for an existing, not-yet-paid booking, POST
/payments with any amount different from the booking's `totalPrice` is
rejected with 400 "Payment amount mismatch" and the store is unchanged
(no payment inserted, booking status kept, ticket quantity kept); with
the exact `totalPrice` the payment proceeds. -/
theorem C2_price_integrity
    (db : DB) (req : PaymentReq) (email : String) (b : Booking)
    (hb : db.getBooking req.bookingId = some b) (hp : b.status ≠ "paid") :
    (req.amount ≠ b.totalPrice →
      recordPayment db req email = (.error (400, "Payment amount mismatch"), db))
    ∧ (req.amount = b.totalPrice → (recordPayment db req email).1 = .ok ()) := by
  refine ⟨fun ha => recordPayment_mismatch db req email b hb hp ha, fun ha => ?_⟩
  rw [recordPayment_success db req email b hb hp ha]

theorem C2_price_integrity_witness :
    recordPayment exDb ⟨1, "tx", 41, none⟩ "c@x"
      = (.error (400, "Payment amount mismatch"), exDb)
    ∧ (recordPayment exDb ⟨1, "tx", 40, none⟩ "c@x").1 = .ok () :=
  ⟨(C2_price_integrity exDb ⟨1, "tx", 41, none⟩ "c@x" exBooking
      (by decide) (by decide)).1 (by decide),
   (C2_price_integrity exDb ⟨1, "tx", 40, none⟩ "c@x" exBooking
      (by decide) (by decide)).2 rfl⟩

/-- C3. No double settlement: a booking already showing the paid status
makes POST /payments reject with "Booking already paid" and leave the
store unchanged; after a successful first settlement any second call on
the same booking id is so rejected; and any sequence of POST /payments
calls on one booking id leaves the store either untouched or settled
exactly once (exactly one payment record added and the ticket quantity
decremented by the booking's quantity exactly once). -/
theorem C3_no_double_settlement
    (db : DB) (b : Booking) (t : Ticket)
    (hb : db.getBooking b.bid = some b)
    (ht : db.getTicket b.ticketId = some t)
    (hp : b.status ≠ "paid") :
    (∀ (db2 : DB) (req : PaymentReq) (email : String) (b2 : Booking),
        db2.getBooking req.bookingId = some b2 → b2.status = "paid" →
        recordPayment db2 req email = (.error (400, "Booking already paid"), db2))
    ∧ (∀ (req : PaymentReq) (email : String), req.bookingId = b.bid →
        (recordPayment db req email).1 = .ok () →
        ∀ (req2 : PaymentReq) (email2 : String), req2.bookingId = b.bid →
          recordPayment (recordPayment db req email).2 req2 email2
            = (.error (400, "Booking already paid"), (recordPayment db req email).2))
    ∧ (∀ calls : List (PaymentReq × String),
        (∀ c ∈ calls, c.1.bookingId = b.bid) →
        runPayments db calls = db
          ∨ SettledState db (runPayments db calls) b t.quantity) := by
  refine ⟨fun db2 req email b2 hb2 hp2 =>
      recordPayment_alreadyPaid db2 req email b2 hb2 hp2,
    fun req email hreq hok req2 email2 hreq2 => ?_,
    fun calls hcalls =>
      runPayments_once db b t hb ht hp calls db hcalls (Or.inl rfl)⟩
  have ha : req.amount = b.totalPrice := by
    by_contra ha
    rw [recordPayment_mismatch db req email b (by rwa [hreq]) hp ha] at hok
    exact absurd hok (by simp)
  exact settled_step db b t.quantity (recordPayment db req email).2
    (settle_once db b t hb ht hp req email hreq ha) req2 email2 hreq2

theorem C3_no_double_settlement_witness :
    recordPayment exPaidDb ⟨1, "tx2", 40, none⟩ "c@x"
      = (.error (400, "Booking already paid"), exPaidDb)
    ∧ (runPayments exDb [(⟨1, "tx1", 40, none⟩, "c@x"), (⟨1, "tx2", 40, none⟩, "c@x")]
          = exDb
        ∨ SettledState exDb
            (runPayments exDb [(⟨1, "tx1", 40, none⟩, "c@x"), (⟨1, "tx2", 40, none⟩, "c@x")])
            exBooking 10) :=
  ⟨(C3_no_double_settlement exDb exBooking exTicket
      (by decide) (by decide) (by decide)).1 exPaidDb ⟨1, "tx2", 40, none⟩ "c@x"
      exPaidBooking (by decide) (by decide),
   (C3_no_double_settlement exDb exBooking exTicket
      (by decide) (by decide) (by decide)).2.2
      [(⟨1, "tx1", 40, none⟩, "c@x"), (⟨1, "tx2", 40, none⟩, "c@x")] (by decide)⟩

/-- C9. Implicit behaviour: POST /payments performs no ownership check,
so a payable booking can be settled by any authenticated requester; the
inserted payment record carries the requester's email, appears in the
requester's GET /user/transactions, and does not appear in the booking
owner's transaction history when the payer is not the owner. -/
theorem C9_payer_not_owner
    (db : DB) (req : PaymentReq) (email : String) (b : Booking)
    (hb : db.getBooking req.bookingId = some b)
    (hp : b.status ≠ "paid") (ha : req.amount = b.totalPrice) :
    ((recordPayment db req email).1 = .ok ())
    ∧ ((mkPayment req email b).userEmail = email)
    ∧ (userTransactions (recordPayment db req email).2 email
        = userTransactions db email ++ [mkPayment req email b])
    ∧ (email ≠ b.userEmail →
        userTransactions (recordPayment db req email).2 b.userEmail
          = userTransactions db b.userEmail) := by
  rw [recordPayment_success db req email b hb hp ha]
  exact ⟨rfl, rfl, settledDB_userTransactions_payer db req email b,
    fun hne => settledDB_userTransactions_other db req email b b.userEmail
      (fun h => hne h.symm)⟩

theorem C9_payer_not_owner_witness :
    ((recordPayment exDb ⟨1, "tx", 40, none⟩ "stranger@x").1 = .ok ())
    ∧ (userTransactions (recordPayment exDb ⟨1, "tx", 40, none⟩ "stranger@x").2 "stranger@x"
        = userTransactions exDb "stranger@x"
            ++ [mkPayment ⟨1, "tx", 40, none⟩ "stranger@x" exBooking])
    ∧ (userTransactions (recordPayment exDb ⟨1, "tx", 40, none⟩ "stranger@x").2 "c@x"
        = userTransactions exDb "c@x") :=
  ⟨(C9_payer_not_owner exDb ⟨1, "tx", 40, none⟩ "stranger@x" exBooking
      (by decide) (by decide) rfl).1,
   (C9_payer_not_owner exDb ⟨1, "tx", 40, none⟩ "stranger@x" exBooking
      (by decide) (by decide) rfl).2.2.1,
   (C9_payer_not_owner exDb ⟨1, "tx", 40, none⟩ "stranger@x" exBooking
      (by decide) (by decide) rfl).2.2.2 (by decide)⟩

/-- C4. Cancellation reconciliation: DELETE /bookings/:id on an owned
booking succeeds and sets both status fields to cancelled; it restores
the referenced ticket's quantity by exactly the booking's quantity when
the pre-transition booking was paid/confirmed, leaves the quantity
untouched otherwise (in particular for a pending booking), and
re-cancelling the already-cancelled booking never restores quantity
again because the restore is guarded by the pre-transition status. -/
theorem C4_cancellation_reconciliation
    (db : DB) (id : Nat) (email : String) (b : Booking)
    (hb : db.getBooking id = some b) (howner : b.userEmail = email) :
    ((cancelBooking db id email).1 = .ok ())
    ∧ (((cancelBooking db id email).2.getBooking id).map Booking.bookingStatus
        = some "cancelled")
    ∧ (((cancelBooking db id email).2.getBooking id).map Booking.status
        = some "cancelled")
    ∧ ((b.status = "paid" ∨ b.bookingStatus = "confirmed") →
        (cancelBooking db id email).2.getTicketQuantity b.ticketId
          = (db.getTicketQuantity b.ticketId).map (fun q => q + b.quantity))
    ∧ (b.status ≠ "paid" → b.bookingStatus ≠ "confirmed" →
        (cancelBooking db id email).2.getTicketQuantity b.ticketId
          = db.getTicketQuantity b.ticketId)
    ∧ ((cancelBooking (cancelBooking db id email).2 id email).2.tickets
        = (cancelBooking db id email).2.tickets) := by
  rw [cancelBooking_success db id email b hb howner]
  have hcb := cancelledDB_getBooking db id b hb
  refine ⟨rfl, ?_, ?_, ?_, ?_, ?_⟩
  · rw [hcb]; rfl
  · rw [hcb]; rfl
  · exact cancelledDB_quantity_restored db id b
  · intro h1 h2
    simp only [DB.getTicketQuantity, DB.getTicket,
      cancelledDB_quantity_unchanged db id b h1 h2]
  · rw [cancelBooking_success (cancelledDB db id b) id email
      { b with status := "cancelled", bookingStatus := "cancelled" } hcb howner]
    exact cancelledDB_quantity_unchanged (cancelledDB db id b) id
      { b with status := "cancelled", bookingStatus := "cancelled" }
      (by simp) (by simp)

theorem C4_cancellation_reconciliation_witness :
    ((cancelBooking exPaidDb 1 "c@x").2.getTicketQuantity 1
      = (exPaidDb.getTicketQuantity 1).map (fun q => q + 2))
    ∧ ((cancelBooking exDb 1 "c@x").2.getTicketQuantity 1
      = exDb.getTicketQuantity 1)
    ∧ ((cancelBooking (cancelBooking exPaidDb 1 "c@x").2 1 "c@x").2.tickets
      = (cancelBooking exPaidDb 1 "c@x").2.tickets) :=
  ⟨(C4_cancellation_reconciliation exPaidDb 1 "c@x" exPaidBooking
      (by decide) (by decide)).2.2.2.1 (Or.inl rfl),
   (C4_cancellation_reconciliation exDb 1 "c@x" exBooking
      (by decide) (by decide)).2.2.2.2.1 (by decide) (by decide),
   (C4_cancellation_reconciliation exPaidDb 1 "c@x" exPaidBooking
      (by decide) (by decide)).2.2.2.2.2⟩

/-- C5. Advertise cap: PATCH /admin/tickets/advertise/:id rejects tickets
that are not approved; a toggle-on is rejected once six or more
advertised+approved tickets exist, while a toggle-off of an approved
advertised ticket always succeeds; and starting from a store satisfying
the cap, every sequence of toggle calls keeps the count of
advertised+approved tickets at most six. -/
theorem C5_advertise_cap
    (db : DB) (id : Nat) (t : Ticket) (ht : db.getTicket id = some t) :
    (t.verificationStatus ≠ "approved" →
      toggleAdvertise db id
        = (.error (400, "Only approved tickets can be advertised"), db))
    ∧ (t.verificationStatus = "approved" → t.isAdvertised = false →
        6 ≤ advertisedApprovedCount db →
        toggleAdvertise db id = (.error (400, "Max 6 advertised"), db))
    ∧ (t.verificationStatus = "approved" → t.isAdvertised = true →
        (toggleAdvertise db id).1 = .ok false)
    ∧ (∀ ids : List Nat, advertisedApprovedCount db ≤ 6 →
        advertisedApprovedCount (runToggles db ids) ≤ 6) :=
  ⟨fun h => toggleAdvertise_notApproved db id t ht h,
   fun happ hoff hc => toggleAdvertise_capped db id t ht happ hoff hc,
   fun happ hon => toggleAdvertise_off db id t ht happ hon,
   fun ids h => runToggles_cap ids db h⟩

def exPendingTicket : Ticket :=
  { tid := 2, vendorEmail := "v@x", title := "Pending", price := 5, quantity := 3,
    verificationStatus := "pending", isAdvertised := false, isHidden := false }

def exAdvTicket : Ticket :=
  { exTicket with tid := 3, isAdvertised := true }

def exAdvDb : DB :=
  { tickets := [exTicket, exPendingTicket, exAdvTicket], users := [],
    bookings := [], payments := [] }

theorem C5_advertise_cap_witness :
    (toggleAdvertise exAdvDb 2
      = (.error (400, "Only approved tickets can be advertised"), exAdvDb))
    ∧ ((toggleAdvertise exAdvDb 3).1 = .ok false)
    ∧ (advertisedApprovedCount (runToggles exAdvDb [1, 3, 2, 1]) ≤ 6) :=
  ⟨(C5_advertise_cap exAdvDb 2 exPendingTicket (by decide)).1 (by decide),
   (C5_advertise_cap exAdvDb 3 exAdvTicket (by decide)).2.2.1 rfl rfl,
   (C5_advertise_cap exAdvDb 1 exTicket (by decide)).2.2.2 [1, 3, 2, 1] (by decide)⟩

/-- C6. Role preservation: POST /user on an email that already has a user
record leaves the stored role unchanged, whatever role the request body
supplies. -/
theorem C6_role_preservation
    (db : DB) (body : UserReq) (u : User)
    (hu : db.getUser body.email = some u) :
    (((upsertUser db body).2.getUser body.email).map User.role = some u.role) := by
  by_cases he : body.email == ""
  · simp only [upsertUser, he, if_pos]
    rw [hu, Option.map_some']
  · have h := find?_updateFirst (fun u0 => u0.email == body.email)
      (fun _ => { email := body.email, role := u.role, name := body.name })
      db.users (fun a _ => by simp)
    simp only [upsertUser, he, Bool.false_eq_true, if_false, hu]
    simp only [DB.getUser] at h hu ⊢
    rw [h, hu, Option.map_some', Option.map_some']

def exUserDb : DB :=
  { tickets := [], users := [{ email := "c@x", role := "vendor", name := "N" }],
    bookings := [], payments := [] }

theorem C6_role_preservation_witness :
    ((upsertUser exUserDb ⟨"c@x", some "admin", "M"⟩).2.getUser "c@x").map User.role
      = some "vendor" :=
  C6_role_preservation exUserDb ⟨"c@x", some "admin", "M"⟩
    { email := "c@x", role := "vendor", name := "N" } (by decide)

/-- A booking ledger with at most one entry trivially satisfies the
anti-double-booking invariant. -/
lemma noDoubleBooking_of_short (db : DB) (h : db.bookings.length ≤ 1) :
    NoDoubleBooking db := by
  intro tid seat
  exact le_trans (List.length_filter_le _ _) h

/-- C1. Anti-double-booking: POST /bookings with an explicitly requested
seat preserves the invariant that each (ticket, seat) pair carries at most
one active (pending/confirmed) booking; when an active booking already
occupies the pair, the insert fails with the distinguishable 409 "Seat
already booked" conflict (not a generic 500) and the ledger is unchanged;
when no active booking occupies the pair — in particular when the previous
occupant was cancelled — the insert succeeds. -/
theorem C1_anti_double_booking
    (db : DB) (tid : Nat) (q : Int) (seat email genSeat genRef : String)
    (newId : Nat) (t : Ticket) (ht : db.getTicket tid = some t) :
    (NoDoubleBooking db →
      NoDoubleBooking
        (createBooking db ⟨tid, q, some seat⟩ email genSeat genRef newId).2)
    ∧ (activeBookingsAt db tid seat ≠ [] →
        createBooking db ⟨tid, q, some seat⟩ email genSeat genRef newId
          = (.error (409, "Seat already booked. Please select another seat."), db))
    ∧ (activeBookingsAt db tid seat = [] →
        (createBooking db ⟨tid, q, some seat⟩ email genSeat genRef newId).1
          = .ok (newBooking ⟨tid, q, some seat⟩ email t genSeat genRef newId)) := by
  have hconf := seatIndexConflict_newBooking db tid q seat email genSeat genRef newId t
  refine ⟨?_, ?_, ?_⟩
  · intro hinv
    by_cases hc : seatIndexConflict db.bookings
        (newBooking ⟨tid, q, some seat⟩ email t genSeat genRef newId) = true
    · rw [createBooking_conflict db ⟨tid, q, some seat⟩ email genSeat genRef newId t ht hc]
      exact hinv
    · have hc' : seatIndexConflict db.bookings
          (newBooking ⟨tid, q, some seat⟩ email t genSeat genRef newId) = false := by
        simpa using hc
      have hnil : activeBookingsAt db tid seat = [] := by
        by_contra hne
        rw [hconf.mpr hne] at hc'
        exact absurd hc' (by simp)
      rw [createBooking_ok db ⟨tid, q, some seat⟩ email genSeat genRef newId t ht hc']
      intro t0 s0
      by_cases hpred : ((newBooking ⟨tid, q, some seat⟩ email t genSeat genRef newId).ticketId == t0
          && (newBooking ⟨tid, q, some seat⟩ email t genSeat genRef newId).seatNumber == s0
          && isActiveStatus (newBooking ⟨tid, q, some seat⟩ email t genSeat genRef newId).bookingStatus) = true
      · have h1 : tid = t0 ∧ seat = s0 := by
          simpa [newBooking, isActiveStatus] using hpred
        obtain ⟨rfl, rfl⟩ := h1
        have : activeBookingsAt
            { db with bookings :=
                (db.bookings ++ [newBooking ⟨tid, q, some seat⟩ email t genSeat genRef newId]) }
            tid seat
            = activeBookingsAt db tid seat
                ++ [newBooking ⟨tid, q, some seat⟩ email t genSeat genRef newId] := by
          simp [activeBookingsAt, List.filter_append, newBooking, isActiveStatus]
        rw [this, hnil]
        simp
      · have hsingle : List.filter
            (fun b => b.ticketId == t0 && b.seatNumber == s0 &&
              isActiveStatus b.bookingStatus)
            [newBooking ⟨tid, q, some seat⟩ email t genSeat genRef newId] = [] := by
          rw [List.filter_eq_nil_iff]
          intro a ha
          rw [List.mem_singleton] at ha
          subst ha
          exact hpred
        have heq : activeBookingsAt
            { db with bookings :=
                (db.bookings ++ [newBooking ⟨tid, q, some seat⟩ email t genSeat genRef newId]) }
            t0 s0
            = activeBookingsAt db t0 s0 := by
          simp only [activeBookingsAt, List.filter_append, hsingle, List.append_nil]
        rw [heq]
        exact hinv t0 s0
  · intro hne
    rw [createBooking_conflict db ⟨tid, q, some seat⟩ email genSeat genRef newId t ht
      (hconf.mpr hne)]
  · intro hnil
    have hc' : seatIndexConflict db.bookings
        (newBooking ⟨tid, q, some seat⟩ email t genSeat genRef newId) = false := by
      rcases Bool.eq_false_or_eq_true (seatIndexConflict db.bookings
        (newBooking ⟨tid, q, some seat⟩ email t genSeat genRef newId)) with h | h
      · exact absurd hnil (hconf.mp h)
      · exact h
    rw [createBooking_ok db ⟨tid, q, some seat⟩ email genSeat genRef newId t ht hc']

def exCancelledDb : DB :=
  { exDb with bookings :=
      [{ exBooking with status := "cancelled", bookingStatus := "cancelled" }] }

theorem C1_anti_double_booking_witness :
    NoDoubleBooking (createBooking exDb ⟨1, 1, some "3C"⟩ "d@x" "2B" "BK2" 2).2
    ∧ createBooking exDb ⟨1, 1, some "1A"⟩ "d@x" "2B" "BK2" 2
        = (.error (409, "Seat already booked. Please select another seat."), exDb)
    ∧ (createBooking exCancelledDb ⟨1, 1, some "1A"⟩ "d@x" "2B" "BK2" 2).1
        = .ok (newBooking ⟨1, 1, some "1A"⟩ "d@x" exTicket "2B" "BK2" 2) :=
  ⟨(C1_anti_double_booking exDb 1 1 "3C" "d@x" "2B" "BK2" 2 exTicket (by decide)).1
      (noDoubleBooking_of_short exDb (by decide)),
   (C1_anti_double_booking exDb 1 1 "1A" "d@x" "2B" "BK2" 2 exTicket (by decide)).2.1
      (by decide),
   (C1_anti_double_booking exCancelledDb 1 1 "1A" "d@x" "2B" "BK2" 2 exTicket
      (by decide)).2.2 (by decide)⟩

def C7exBooking : Booking :=
  { exBooking with status := "cancelled", bookingStatus := "cancelled" }

def C7exDb : DB :=
  { tickets := [], users := [], bookings := [C7exBooking], payments := [] }

/-- C7 (counterexample). The claim "no operation ever transitions a
cancelled booking back to pending or confirmed" is false: in a store whose
only booking is cancelled, PATCH /bookings/:id/status with the accepted
external value "accepted" moves it to bookingStatus "confirmed". -/
theorem C7_counterexample :
    ((C7exDb.getBooking 1).map Booking.bookingStatus = some "cancelled")
    ∧ (((updateBookingStatus C7exDb 1 "accepted").2.getBooking 1).map
        Booking.bookingStatus = some "confirmed") := by decide

/-- C7 (amended). PATCH /bookings/:id/status filters only on `_id` and
never consults the current status: for every existing booking — whatever
its current bookingStatus, including "cancelled" — and every accepted
external status value, the booking's bookingStatus is overwritten with the
mapped value, so cancelled is not terminal under this route. -/
theorem C7_amended_not_terminal
    (db : DB) (id : Nat) (s : String) (b : Booking)
    (hb : db.getBooking id = some b)
    (hs : acceptedStatusValues.contains s = true) :
    ((updateBookingStatus db id s).2.getBooking id).map Booking.bookingStatus
      = some (statusMap s) := by
  have h := find?_updateFirst (fun b0 => b0.bid == id)
    (fun b0 => { b0 with status := s, bookingStatus := statusMap s })
    db.bookings (fun a ha => by simpa using ha)
  simp only [updateBookingStatus, hs, Bool.not_true, Bool.false_eq_true, if_false,
    DB.getBooking]
  simp only [DB.getBooking] at h hb
  rw [h, hb, Option.map_some', Option.map_some']

theorem C7_amended_not_terminal_witness :
    ((updateBookingStatus C7exDb 1 "accepted").2.getBooking 1).map
        Booking.bookingStatus = some "confirmed" :=
  C7_amended_not_terminal C7exDb 1 "accepted" C7exBooking (by decide) (by decide)

def C8exTicket : Ticket :=
  { tid := 7, vendorEmail := "v@x", title := "Hidden pending", price := 5,
    quantity := 3, verificationStatus := "pending", isAdvertised := false,
    isHidden := true }

def C8exDb : DB :=
  { tickets := [C8exTicket], users := [], bookings := [], payments := [] }

/-- C8 (counterexample). The claim that all four public catalog reads
return only approved, non-hidden tickets is false for GET /tickets/:id: a
pending, hidden ticket is returned verbatim by id. -/
theorem C8_counterexample :
    getTicketRoute C8exDb 7 = .ok C8exTicket
    ∧ C8exTicket.verificationStatus ≠ "approved"
    ∧ C8exTicket.isHidden = true :=
  ⟨rfl, by decide, rfl⟩

/-- C8 (amended). The three public list endpoints — GET /tickets/all,
/tickets/latest and /tickets/advertised-home — return only tickets that
are approved and not hidden; GET /tickets/:id, however, applies no
visibility filter and returns whatever ticket bears the requested id. -/
theorem C8_amended_catalog_visibility (db : DB) :
    (∀ t ∈ ticketsAll db, t.verificationStatus = "approved" ∧ t.isHidden = false)
    ∧ (∀ t ∈ ticketsLatest db, t.verificationStatus = "approved" ∧ t.isHidden = false)
    ∧ (∀ t ∈ ticketsAdvertisedHome db,
        t.verificationStatus = "approved" ∧ t.isHidden = false)
    ∧ (∀ (id : Nat) (t : Ticket), getTicketRoute db id = .ok t → t ∈ db.tickets) := by
  have hall : ∀ t ∈ ticketsAll db,
      t.verificationStatus = "approved" ∧ t.isHidden = false := by
    intro t htm
    have h := (List.mem_filter.mp htm).2
    simpa using h
  refine ⟨hall, ?_, ?_, ?_⟩
  · intro t htm
    exact hall t (List.take_subset 8 (ticketsAll db) htm)
  · intro t htm
    have h := (List.mem_filter.mp (List.take_subset 6 _ htm)).2
    have h' : t.isAdvertised = true ∧ t.verificationStatus = "approved"
        ∧ t.isHidden = false := by
      simpa [and_assoc] using h
    exact ⟨h'.2.1, h'.2.2⟩
  · intro id t hres
    cases hfind : db.getTicket id with
    | none => simp [getTicketRoute, hfind] at hres
    | some t0 =>
      have : t0 = t := by simpa [getTicketRoute, hfind] using hres
      subst this
      exact List.mem_of_find?_eq_some hfind

theorem C8_amended_catalog_visibility_witness :
    (exTicket.verificationStatus = "approved" ∧ exTicket.isHidden = false)
    ∧ C8exTicket ∈ C8exDb.tickets :=
  ⟨(C8_amended_catalog_visibility exAdvDb).1 exTicket (by decide),
   (C8_amended_catalog_visibility C8exDb).2.2.2 7 C8exTicket rfl⟩

/-- C10. Implicit behaviour of the main implementation: POST /bookings in
`src/index.js` performs no validation of `quantity` — any integer,
including zero and negatives, is accepted whenever the ticket exists and
the seat is free; the inserted booking carries
`totalPrice = ticket.price * quantity` and status "pending"; the ticket
inventory is untouched at creation; and settling the booking later moves
the ticket quantity by exactly `-quantity` (an increase when the client
supplied a negative quantity). -/
theorem C10_quantity_unvalidated
    (db : DB) (tid : Nat) (q : Int) (seat email genSeat genRef : String)
    (newId : Nat) (t : Ticket)
    (ht : db.getTicket tid = some t)
    (hfree : activeBookingsAt db tid seat = [])
    (hfresh : db.getBooking newId = none) :
    ((createBooking db ⟨tid, q, some seat⟩ email genSeat genRef newId).1
        = .ok (newBooking ⟨tid, q, some seat⟩ email t genSeat genRef newId))
    ∧ ((newBooking ⟨tid, q, some seat⟩ email t genSeat genRef newId).totalPrice
        = t.price * q)
    ∧ ((newBooking ⟨tid, q, some seat⟩ email t genSeat genRef newId).status
        = "pending")
    ∧ ((createBooking db ⟨tid, q, some seat⟩ email genSeat genRef newId).2.tickets
        = db.tickets)
    ∧ (∀ (txid : String) (method : Option String) (em : String),
        (recordPayment
            (createBooking db ⟨tid, q, some seat⟩ email genSeat genRef newId).2
            ⟨newId, txid, t.price * q, method⟩ em).2.getTicketQuantity tid
          = some (t.quantity - q)) := by
  have hc' : seatIndexConflict db.bookings
      (newBooking ⟨tid, q, some seat⟩ email t genSeat genRef newId) = false := by
    rcases Bool.eq_false_or_eq_true (seatIndexConflict db.bookings
      (newBooking ⟨tid, q, some seat⟩ email t genSeat genRef newId)) with h | h
    · exact absurd hfree
        ((seatIndexConflict_newBooking db tid q seat email genSeat genRef newId t).mp h)
    · exact h
  have hck := createBooking_ok db ⟨tid, q, some seat⟩ email genSeat genRef newId t ht hc'
  rw [hck]
  refine ⟨rfl, rfl, rfl, rfl, ?_⟩
  intro txid method em
  set nb := newBooking ⟨tid, q, some seat⟩ email t genSeat genRef newId with hnb
  have hb1 : ({ db with bookings := (db.bookings ++ [nb]) } : DB).getBooking newId
      = some nb := by
    simp only [DB.getBooking, List.find?_append]
    simp only [DB.getBooking] at hfresh
    rw [hfresh]
    simp [hnb, newBooking]
  have hq1 : ({ db with bookings := (db.bookings ++ [nb]) } : DB).getTicketQuantity tid
      = some t.quantity := by
    simp [DB.getTicketQuantity, DB.getTicket, DB.getTicket.eq_def] at ht ⊢
    simp [ht]
  have hrp := recordPayment_success { db with bookings := (db.bookings ++ [nb]) }
    ⟨newId, txid, t.price * q, method⟩ em nb hb1 (by simp [hnb, newBooking]) rfl
  rw [hrp]
  have := settledDB_getTicketQuantity { db with bookings := (db.bookings ++ [nb]) }
    ⟨newId, txid, t.price * q, method⟩ em nb
  rw [show nb.ticketId = tid from rfl] at this
  rw [this, hq1]
  rfl

def exEmptyDb : DB :=
  { tickets := [exTicket], users := [], bookings := [], payments := [] }

theorem C10_quantity_unvalidated_witness :
    ((createBooking exEmptyDb ⟨1, -2, some "1A"⟩ "c@x" "2B" "BK9" 5).1
        = .ok (newBooking ⟨1, -2, some "1A"⟩ "c@x" exTicket "2B" "BK9" 5))
    ∧ ((createBooking exEmptyDb ⟨1, -2, some "1A"⟩ "c@x" "2B" "BK9" 5).2.tickets
        = exEmptyDb.tickets)
    ∧ ((recordPayment
          (createBooking exEmptyDb ⟨1, -2, some "1A"⟩ "c@x" "2B" "BK9" 5).2
          ⟨5, "tx", exTicket.price * -2, none⟩ "c@x").2.getTicketQuantity 1
        = some (exTicket.quantity - -2)) :=
  ⟨(C10_quantity_unvalidated exEmptyDb 1 (-2) "1A" "c@x" "2B" "BK9" 5 exTicket
      (by decide) (by decide) (by decide)).1,
   (C10_quantity_unvalidated exEmptyDb 1 (-2) "1A" "c@x" "2B" "BK9" 5 exTicket
      (by decide) (by decide) (by decide)).2.2.2.1,
   (C10_quantity_unvalidated exEmptyDb 1 (-2) "1A" "c@x" "2B" "BK9" 5 exTicket
      (by decide) (by decide) (by decide)).2.2.2.2 "tx" none "c@x"⟩

end TicketBari
